import Mathlib

set_option maxRecDepth 100000

/-!
# Verification of the RoboMaster S1 command-protocol engine

A shallow embedding, over `Nat`-valued bytes, of the command-protocol engine
of the `robomaster_s1_rust` repository: the CRC16 checksum engine
(`src/crc/crc16.rs`), the CAN frame splitter and telemetry receive path
(`src/can/mod.rs`), the command builders (`src/command/builder.rs`) and the
stateful control session (`src/control/mod.rs`).

Conventions of the embedding:
- Bytes and 16-bit words are `Nat` with explicit masking (`&&& 0xFF`,
  `% 65536`) where the source relies on the machine width.
- Rust `u16::wrapping_add` is modelled as addition modulo `2^16`; the plain
  Rust `+` / `+=` on `u16` is modelled as a checked addition that yields a
  panic outcome on overflow, matching the overflow checks that are enabled in
  the debug/test profiles the crate is built with by default.
- `f32` axis parameters are modelled as rationals; the concrete inputs used
  in counterexamples and witnesses are dyadic rationals on which the `f32`
  computations of the source are exact, so the rational model and the `f32`
  computation agree there.
- Fallible Rust functions returning `Result` are modelled with `Except`;
  methods that mutate `&mut self` and can fail return the mutated state
  together with an optional error, because a Rust early return keeps the
  mutations already performed.
- The crate module `src/command/mod.rs` (the command-template table and its
  role predicates) and `src/crc/crc8.rs` are not part of the provided source
  tree; they are modelled from the spec as an abstract `CommandModule`
  parameter, see below.
-/

/-! ## CRC16 checksum engine (src/crc/crc16.rs) -/

/-- CRC16 initial value (`CRC16_INIT` in src/crc/crc16.rs). -/
def CRC16_INIT : Nat := 13970

/-- CRC16 polynomial table for fast calculation (`CRC16_TABLE` in
src/crc/crc16.rs), 256 entries. -/
def CRC16_TABLE : List Nat := [
  0x0000, 0x1189, 0x2312, 0x329b, 0x4624, 0x57ad, 0x6536, 0x74bf,
  0x8c48, 0x9dc1, 0xaf5a, 0xbed3, 0xca6c, 0xdbe5, 0xe97e, 0xf8f7,
  0x1081, 0x0108, 0x3393, 0x221a, 0x56a5, 0x472c, 0x75b7, 0x643e,
  0x9cc9, 0x8d40, 0xbfdb, 0xae52, 0xdaed, 0xcb64, 0xf9ff, 0xe876,
  0x2102, 0x308b, 0x0210, 0x1399, 0x6726, 0x76af, 0x4434, 0x55bd,
  0xad4a, 0xbcc3, 0x8e58, 0x9fd1, 0xeb6e, 0xfae7, 0xc87c, 0xd9f5,
  0x3183, 0x200a, 0x1291, 0x0318, 0x77a7, 0x662e, 0x54b5, 0x453c,
  0xbdcb, 0xac42, 0x9ed9, 0x8f50, 0xfbef, 0xea66, 0xd8fd, 0xc974,
  0x4204, 0x538d, 0x6116, 0x709f, 0x0420, 0x15a9, 0x2732, 0x36bb,
  0xce4c, 0xdfc5, 0xed5e, 0xfcd7, 0x8868, 0x99e1, 0xab7a, 0xbaf3,
  0x5285, 0x430c, 0x7197, 0x601e, 0x14a1, 0x0528, 0x37b3, 0x263a,
  0xdecd, 0xcf44, 0xfddf, 0xec56, 0x98e9, 0x8960, 0xbbfb, 0xaa72,
  0x6306, 0x728f, 0x4014, 0x519d, 0x2522, 0x34ab, 0x0630, 0x17b9,
  0xef4e, 0xfec7, 0xcc5c, 0xddd5, 0xa96a, 0xb8e3, 0x8a78, 0x9bf1,
  0x7387, 0x620e, 0x5095, 0x411c, 0x35a3, 0x242a, 0x16b1, 0x0738,
  0xffcf, 0xee46, 0xdcdd, 0xcd54, 0xb9eb, 0xa862, 0x9af9, 0x8b70,
  0x8408, 0x9581, 0xa71a, 0xb693, 0xc22c, 0xd3a5, 0xe13e, 0xf0b7,
  0x0840, 0x19c9, 0x2b52, 0x3adb, 0x4e64, 0x5fed, 0x6d76, 0x7cff,
  0x9489, 0x8500, 0xb79b, 0xa612, 0xd2ad, 0xc324, 0xf1bf, 0xe036,
  0x18c1, 0x0948, 0x3bd3, 0x2a5a, 0x5ee5, 0x4f6c, 0x7df7, 0x6c7e,
  0xa50a, 0xb483, 0x8618, 0x9791, 0xe32e, 0xf2a7, 0xc03c, 0xd1b5,
  0x2942, 0x38cb, 0x0a50, 0x1bd9, 0x6f66, 0x7eef, 0x4c74, 0x5dfd,
  0xb58b, 0xa402, 0x9699, 0x8710, 0xf3af, 0xe226, 0xd0bd, 0xc134,
  0x39c3, 0x284a, 0x1ad1, 0x0b58, 0x7fe7, 0x6e6e, 0x5cf5, 0x4d7c,
  0xc60c, 0xd785, 0xe51e, 0xf497, 0x8028, 0x91a1, 0xa33a, 0xb2b3,
  0x4a44, 0x5bcd, 0x6956, 0x78df, 0x0c60, 0x1de9, 0x2f72, 0x3efb,
  0xd68d, 0xc704, 0xf59f, 0xe416, 0x90a9, 0x8120, 0xb3bb, 0xa232,
  0x5ac5, 0x4b4c, 0x79d7, 0x685e, 0x1ce1, 0x0d68, 0x3ff3, 0x2e7a,
  0xe70e, 0xf687, 0xc41c, 0xd595, 0xa12a, 0xb0a3, 0x8238, 0x93b1,
  0x6b46, 0x7acf, 0x4854, 0x59dd, 0x2d62, 0x3ceb, 0x0e70, 0x1ff9,
  0xf78f, 0xe606, 0xd49d, 0xc514, 0xb1ab, 0xa022, 0x92b9, 0x8330,
  0x7bc7, 0x6a4e, 0x58d5, 0x495c, 0x3de3, 0x2c6a, 0x1ef1, 0x0f78]

/-- One step of the CRC16 loop body:
`crc = (crc >> 8) ^ CRC16_TABLE[(crc ^ byte) & 0xFF]`. -/
def crc16_step (crc byte : Nat) : Nat :=
  (crc >>> 8) ^^^ CRC16_TABLE.getD ((crc ^^^ byte) &&& 0xFF) 0

/-- `calculate_crc16` from src/crc/crc16.rs: fold the step over the data. -/
def calculate_crc16 (data : List Nat) (init_value : Nat) : Nat :=
  data.foldl crc16_step init_value

/-- `append_crc16_checksum` from src/crc/crc16.rs: append the CRC16 of the
buffer in little-endian order (low byte first). -/
def append_crc16_checksum (data : List Nat) (init_value : Nat) : List Nat :=
  let crc := calculate_crc16 data init_value
  data ++ [crc &&& 0xFF, crc >>> 8]

/-- `verify_crc16_checksum` from src/crc/crc16.rs: false for buffers shorter
than 2 bytes; otherwise recompute the CRC16 of the payload (all but the last
two bytes) and compare with the little-endian trailer. -/
def verify_crc16_checksum (data : List Nat) (init_value : Nat) : Bool :=
  if data.length < 2 then
    false
  else
    let payload := data.take (data.length - 2)
    let crc_bytes := data.drop (data.length - 2)
    let expected_crc := crc_bytes.getD 0 0 ||| (crc_bytes.getD 1 0 <<< 8)
    calculate_crc16 payload init_value == expected_crc

/-- `get_crc16_checksum` from src/crc/crc16.rs (alias of `calculate_crc16`). -/
def get_crc16_checksum (data : List Nat) (init_value : Nat) : Nat :=
  calculate_crc16 data init_value

/-- C7: `calculate_crc16` with seed 13970 returns 13970 on the empty buffer
and 0x2065 on the 13-byte buffer
`[0x55,0x1b,0x04,0xa2,0x09,0x04,0x00,0x00,0x40,0x04,0x4c,0x00,0x00]`,
using the table-driven step over the fixed 256-entry table. -/
theorem c7_crc16_known_values :
    calculate_crc16 [] CRC16_INIT = 13970 ∧
    calculate_crc16
      [0x55, 0x1b, 0x04, 0xa2, 0x09, 0x04, 0x00, 0x00, 0x40, 0x04, 0x4c,
        0x00, 0x00] CRC16_INIT = 0x2065 := by
  constructor
  · rfl
  · decide

/-! ## CAN frame splitter (src/can/mod.rs) -/

/-- `CAN_MAX_DATA_LEN` from src/can/mod.rs. -/
def CAN_MAX_DATA_LEN : Nat := 8

/-- `ROBOMASTER_CAN_ID` from src/can/mod.rs: the standard arbitration ID. -/
def ROBOMASTER_CAN_ID : Nat := 0x201

/-- `MessageSplitter::split_command` from src/can/mod.rs: computes
`chunks = (len + 8 - 1) / 8` and, for each `i < chunks`, takes the slice
`command[i*8 .. min (i*8+8) len]`. -/
def split_command (command : List Nat) : List (List Nat) :=
  let chunks := (command.length + CAN_MAX_DATA_LEN - 1) / CAN_MAX_DATA_LEN
  (List.range chunks).map (fun i => (command.drop (i * CAN_MAX_DATA_LEN)).take CAN_MAX_DATA_LEN)

/-- Unfolding equation for `split_command`: the first chunk is the first 8
bytes, the rest is the split of the remainder. -/
theorem split_command_eq (command : List Nat) :
    split_command command =
      if command = [] then []
      else command.take 8 :: split_command (command.drop 8) := by
  by_cases h : command = []
  · subst h; rfl
  · simp only [h, if_false]
    have hlen : command.length ≠ 0 := by
      simpa [List.length_eq_zero] using h
    have hchunks : (command.length + CAN_MAX_DATA_LEN - 1) / CAN_MAX_DATA_LEN =
        ((command.drop 8).length + CAN_MAX_DATA_LEN - 1) / CAN_MAX_DATA_LEN + 1 := by
      simp only [CAN_MAX_DATA_LEN, List.length_drop]
      omega
    simp only [split_command]
    rw [hchunks, List.range_succ_eq_map]
    simp only [List.map_cons, List.map_map, Nat.zero_mul, List.drop_zero,
      CAN_MAX_DATA_LEN]
    congr 1
    apply List.map_congr_left
    intro a _
    simp only [Function.comp_apply, List.drop_drop]
    congr 2
    omega

/-- Helper: every property of C8, proved by strong induction on the length,
using the unfolding equation. -/
theorem split_command_props (command : List Nat) :
    (split_command command).length = (command.length + 7) / 8 ∧
    (∀ chunk ∈ split_command command, chunk.length ≤ 8) ∧
    (split_command command).join = command ∧
    (∀ i, i + 1 < (split_command command).length →
      ((split_command command).getD i []).length = 8) := by
  generalize hn : command.length = n
  induction n using Nat.strong_induction_on generalizing command with
  | _ n ih =>
    rw [split_command_eq]
    by_cases h : command = []
    · subst h; simp at hn; subst hn; simp
    · simp only [h, if_false]
      have hlen0 : command.length ≠ 0 := by
        simpa [List.length_eq_zero] using h
      have hdrop : (command.drop 8).length = command.length - 8 := by
        simp
      have hrec := ih (command.length - 8) (by omega) (command.drop 8) hdrop
      obtain ⟨hcount, hbound, hjoin, hfull⟩ := hrec
      refine ⟨?_, ?_, ?_, ?_⟩
      · simp only [List.length_cons, hcount, hdrop]
        omega
      · intro chunk hchunk
        rcases List.mem_cons.mp hchunk with hc | hc
        · subst hc; simpa using List.length_take_le 8 command
        · exact hbound chunk hc
      · simp only [List.join_cons, hjoin, List.take_append_drop]
      · intro i hi
        cases i with
        | zero =>
          simp only [List.getD_cons_zero, List.length_take]
          simp only [List.length_cons, hcount, hdrop] at hi
          simp only [CAN_MAX_DATA_LEN] at *
          omega
        | succ j =>
          simp only [List.getD_cons_succ]
          apply hfull
          simpa using hi

/-- C8: for every byte buffer of length N, `split_command` returns exactly
`ceil(N/8)` chunks, each of at most 8 bytes, whose concatenation in order
equals the original buffer, with every chunk but the last of length exactly
8; the empty input yields zero chunks (and the function is total, so no
input fails). -/
theorem c8_split_command_chunks (command : List Nat) :
    (split_command command).length = (command.length + 7) / 8 ∧
    (∀ chunk ∈ split_command command, chunk.length ≤ 8) ∧
    (split_command command).join = command ∧
    (∀ i, i + 1 < (split_command command).length →
      ((split_command command).getD i []).length = 8) ∧
    (command = [] → split_command command = []) := by
  obtain ⟨h1, h2, h3, h4⟩ := split_command_props command
  refine ⟨h1, h2, h3, h4, ?_⟩
  intro h; subst h; rfl

/-- Witness for C8 at the concrete buffer `[1,…,12]`: two chunks, the first
full, concatenation restores the buffer. -/
theorem c8_split_command_chunks_witness :
    (split_command [1, 2, 3, 4, 5, 6, 7, 8, 9, 10, 11, 12]).length = 2 ∧
    ((split_command [1, 2, 3, 4, 5, 6, 7, 8, 9, 10, 11, 12]).getD 0 []).length = 8 := by
  have h := c8_split_command_chunks [1, 2, 3, 4, 5, 6, 7, 8, 9, 10, 11, 12]
  exact ⟨by simpa using h.1, h.2.2.2.1 0 (by simp [h.1])⟩

/-! ## Touch command (src/command/builder.rs, build_touch_command) -/

/-- `CommandBuilder::build_touch_command` from src/command/builder.rs:
two fixed byte arrays, the first carrying the `joy` counter little-endian at
offsets 6 and 7; the CRC16 is computed over the concatenation of both arrays
and its two little-endian bytes are pushed onto the end of the second array.
The Rust function always returns `Ok`; the model returns the `Ok` value. -/
def build_touch_command (joy : Nat) : List (List Nat) :=
  let first : List Nat :=
    [0x55, 0x0f, 0x04, 0xa2, 0x09, 0x04, joy &&& 0xFF, (joy >>> 8) &&& 0xFF]
  let second : List Nat := [0x40, 0x04, 0x4c, 0x00, 0x00]
  let combined_msg := first ++ second
  let crc16 := get_crc16_checksum combined_msg CRC16_INIT
  [first, second ++ [crc16 &&& 0xFF, (crc16 >>> 8) &&& 0xFF]]

/-- C5: `build_touch_command` produces exactly two byte arrays; the first
carries the joy counter little-endian at offsets 6 and 7; the two-byte
little-endian CRC16 trailer appended to the second array is computed (seed
13970) over the concatenation of both arrays — and, concretely at joy = 0,
that CRC differs from the CRC of the second array alone. -/
theorem c5_touch_crc_over_concat (joy : Nat) :
    (build_touch_command joy).length = 2 ∧
    (build_touch_command joy).getD 0 [] =
      [0x55, 0x0f, 0x04, 0xa2, 0x09, 0x04, joy &&& 0xFF, (joy >>> 8) &&& 0xFF] ∧
    (build_touch_command joy).getD 1 [] =
      [0x40, 0x04, 0x4c, 0x00, 0x00] ++
        [get_crc16_checksum ((build_touch_command joy).getD 0 [] ++
            [0x40, 0x04, 0x4c, 0x00, 0x00]) CRC16_INIT &&& 0xFF,
          (get_crc16_checksum ((build_touch_command joy).getD 0 [] ++
            [0x40, 0x04, 0x4c, 0x00, 0x00]) CRC16_INIT >>> 8) &&& 0xFF] ∧
    get_crc16_checksum ((build_touch_command 0).getD 0 [] ++
        [0x40, 0x04, 0x4c, 0x00, 0x00]) CRC16_INIT ≠
      get_crc16_checksum [0x40, 0x04, 0x4c, 0x00, 0x00] CRC16_INIT := by
  refine ⟨rfl, rfl, rfl, by decide⟩

/-! ## Twist axis fixed-point encoding (src/command/builder.rs, lines 119-121) -/

/-- Truncation toward zero of a rational: the rounding mode used by Rust
float-to-integer `as` casts. -/
def truncTowardZero (q : ℚ) : ℤ := if 0 ≤ q then ⌊q⌋ else ⌈q⌉

/-- A Rust `f32 as i32` cast (saturating since Rust 1.45): truncate toward
zero and saturate at the `i32` bounds.  Modelled on exact rationals; the
concrete inputs used below are dyadic rationals on which the source's `f32`
arithmetic is exact. -/
def f32_as_i32 (q : ℚ) : ℤ :=
  max (-2147483648) (min 2147483647 (truncTowardZero q))

/-- Rust `Ord::clamp x lo hi` (for `lo ≤ hi`). -/
def rust_clamp (x lo hi : ℤ) : ℤ := max lo (min x hi)

/-- The per-axis fixed-point conversion of `build_twist_command`
(src/command/builder.rs lines 119-121):
`((256.0 * v + 1024.0) as i32).clamp(0, 2047)`. -/
def twist_axis_value (v : ℚ) : ℤ :=
  rust_clamp (f32_as_i32 (256 * v + 1024)) 0 2047

/-- The axis encoding as the spec words it (refinement comparison only):
`clamp(round(256*v + 1024), 0, 2047)`, rounding to the nearest integer
before clamping. -/
def twist_axis_value_claimed (v : ℚ) : ℤ :=
  rust_clamp (round ((256 : ℚ) * v + 1024)) 0 2047

/-- Evaluation helper: pin down `twist_axis_value` on a nonnegative
in-range input by the floor characterization. -/
theorem twist_axis_value_eval (v : ℚ) (n : ℤ) (h1 : (n : ℚ) ≤ 256 * v + 1024)
    (h2 : 256 * v + 1024 < n + 1) (h3 : 0 ≤ n) (h4 : n ≤ 2047) :
    twist_axis_value v = n := by
  have hq : (0 : ℚ) ≤ 256 * v + 1024 := by
    calc (0 : ℚ) ≤ (n : ℚ) := by exact_mod_cast h3
    _ ≤ 256 * v + 1024 := h1
  have hfl : ⌊(256 : ℚ) * v + 1024⌋ = n := by
    rw [Int.floor_eq_iff]
    exact ⟨h1, by exact_mod_cast h2⟩
  simp only [twist_axis_value, truncTowardZero, f32_as_i32, rust_clamp,
    if_pos hq, hfl]
  simp only [min_def, max_def]
  split_ifs <;> omega

/-- Evaluation helper: pin down `twist_axis_value_claimed` likewise
(`round q = ⌊q + 1/2⌋`). -/
theorem twist_axis_value_claimed_eval (v : ℚ) (n : ℤ)
    (h1 : (n : ℚ) ≤ 256 * v + 1024 + 1 / 2)
    (h2 : 256 * v + 1024 + 1 / 2 < n + 1) (h3 : 0 ≤ n) (h4 : n ≤ 2047) :
    twist_axis_value_claimed v = n := by
  have hfl : ⌊(256 : ℚ) * v + 1024 + 1 / 2⌋ = n := by
    rw [Int.floor_eq_iff]
    exact ⟨h1, by exact_mod_cast h2⟩
  simp only [twist_axis_value_claimed, rust_clamp, round_eq, hfl]
  simp only [min_def, max_def]
  split_ifs <;> omega

/-- C1 counterexample: at `v = 3/1024` (exactly representable in `f32`, with
`256*v + 1024 = 1024.75` computed exactly by the source's `f32` arithmetic)
the code truncates to 1024 while the claimed round-to-nearest encoding gives
1025. -/
theorem c1_rounding_counterexample :
    twist_axis_value (3 / 1024) = 1024 ∧
    twist_axis_value_claimed (3 / 1024) = 1025 ∧
    twist_axis_value (3 / 1024) ≠ twist_axis_value_claimed (3 / 1024) := by
  have ha : twist_axis_value (3 / 1024) = 1024 :=
    twist_axis_value_eval _ 1024 (by norm_num) (by norm_num) (by norm_num)
      (by norm_num)
  have hb : twist_axis_value_claimed (3 / 1024) = 1025 :=
    twist_axis_value_claimed_eval _ 1025 (by norm_num) (by norm_num)
      (by norm_num) (by norm_num)
  refine ⟨ha, hb, ?_⟩
  rw [ha, hb]
  decide

/-- C1 amended: each movement axis value `v` is encoded by
`build_twist_command` as `clamp(trunc(256*v + 1024), 0, 2047)` where `trunc`
truncates toward zero (the `i32` saturation of the cast is absorbed by the
clamp), an 11-bit unsigned value in `[0, 2047]`. -/
theorem c1_twist_axis_truncates (v : ℚ) :
    twist_axis_value v = max 0 (min 2047 (truncTowardZero (256 * v + 1024))) ∧
    0 ≤ twist_axis_value v ∧ twist_axis_value v ≤ 2047 := by
  simp only [twist_axis_value, rust_clamp, f32_as_i32]
  generalize truncTowardZero (256 * v + 1024) = t
  refine ⟨?_, ?_, ?_⟩ <;>
    simp only [min_def, max_def] <;> split_ifs <;> omega

/-! ## C6: CRC16 append/verify round trip and single-byte error detection -/

/-- The CRC16 table has 256 entries. -/
theorem crc16_table_length : CRC16_TABLE.length = 256 := rfl

/-- Every CRC16 table entry is below `2^16`. -/
theorem crc16_table_lt : ∀ x ∈ CRC16_TABLE, x < 2 ^ 16 := by decide

/-- Any (defaulted) table lookup is below `2^16`. -/
theorem crc16_table_getD_lt (i : Nat) : CRC16_TABLE.getD i 0 < 2 ^ 16 := by
  by_cases h : i < CRC16_TABLE.length
  · rw [List.getD_eq_getElem _ _ h]
    exact crc16_table_lt _ (List.getElem_mem h)
  · rw [List.getD_eq_default _ _ (Nat.le_of_not_lt h)]
    norm_num

/-- The step keeps the running CRC below `2^16`. -/
theorem crc16_step_lt (crc b : Nat) (h : crc < 2 ^ 16) :
    crc16_step crc b < 2 ^ 16 := by
  unfold crc16_step
  refine Nat.xor_lt_two_pow ?_ (crc16_table_getD_lt _)
  rw [Nat.shiftRight_eq_div_pow]
  exact Nat.lt_of_le_of_lt (Nat.div_le_self _ _) h

/-- The running CRC stays below `2^16`. -/
theorem calculate_crc16_lt (data : List Nat) (init : Nat) (h : init < 2 ^ 16) :
    calculate_crc16 data init < 2 ^ 16 := by
  induction data generalizing init with
  | nil => exact h
  | cons b t ih =>
    simp only [calculate_crc16, List.foldl_cons] at *
    exact ih _ (crc16_step_lt _ _ h)

/-- The high bytes of the CRC16 table entries. -/
def crc16_table_hi : List Nat := CRC16_TABLE.map (fun x => x >>> 8)

/-- The 256 high bytes of the table are pairwise distinct. -/
theorem crc16_table_hi_nodup : crc16_table_hi.Nodup := by decide

/-- The map from table index to entry high byte is injective. -/
theorem crc16_hi_inj {j1 j2 : Nat} (h1 : j1 < 256) (h2 : j2 < 256)
    (h : CRC16_TABLE.getD j1 0 >>> 8 = CRC16_TABLE.getD j2 0 >>> 8) :
    j1 = j2 := by
  have l1 : j1 < CRC16_TABLE.length := by rw [crc16_table_length]; exact h1
  have l2 : j2 < CRC16_TABLE.length := by rw [crc16_table_length]; exact h2
  have m1 : j1 < crc16_table_hi.length := by
    simpa [crc16_table_hi] using l1
  have m2 : j2 < crc16_table_hi.length := by
    simpa [crc16_table_hi] using l2
  have e1 : crc16_table_hi.get ⟨j1, m1⟩ = CRC16_TABLE.getD j1 0 >>> 8 := by
    rw [List.getD_eq_getElem _ _ l1]
    simp [crc16_table_hi, List.get_eq_getElem]
  have e2 : crc16_table_hi.get ⟨j2, m2⟩ = CRC16_TABLE.getD j2 0 >>> 8 := by
    rw [List.getD_eq_getElem _ _ l2]
    simp [crc16_table_hi, List.get_eq_getElem]
  have hget : crc16_table_hi.get ⟨j1, m1⟩ = crc16_table_hi.get ⟨j2, m2⟩ := by
    rw [e1, e2, h]
  have := (crc16_table_hi_nodup.get_inj_iff).mp hget
  simpa using this

/-- The table itself is injective as a map from index to entry. -/
theorem crc16_table_inj {j1 j2 : Nat} (h1 : j1 < 256) (h2 : j2 < 256)
    (h : CRC16_TABLE.getD j1 0 = CRC16_TABLE.getD j2 0) : j1 = j2 :=
  crc16_hi_inj h1 h2 (by rw [h])

/-- XORing a value below `2^8` does not change bits 8 and above. -/
theorem xor_low_shiftRight_eq {h t : Nat} (hh : h < 2 ^ 8) :
    (h ^^^ t) >>> 8 = t >>> 8 := by
  apply Nat.eq_of_testBit_eq
  intro k
  simp only [Nat.testBit_shiftRight, Nat.testBit_xor]
  rw [Nat.testBit_lt_two_pow
    (Nat.lt_of_lt_of_le hh (Nat.pow_le_pow_right (by norm_num) (by omega)))]
  simp

/-- `testBit` of the mask 255. -/
theorem testBit_255 (k : Nat) : Nat.testBit 255 k = decide (k < 8) := by
  have h := Nat.testBit_two_pow_sub_one 8 k
  norm_num at h
  exact h

/-- Masking with 255 is reduction modulo 256. -/
theorem and_255_eq_mod (x : Nat) : x &&& 255 = x % 256 := by
  have h := Nat.and_pow_two_sub_one_eq_mod x 8
  norm_num at h
  exact h

/-- A 255-masked value is below 256. -/
theorem and_255_lt (x : Nat) : x &&& 255 < 256 := by
  rw [and_255_eq_mod]
  exact Nat.mod_lt _ (by norm_num)

/-- For a fixed input byte, the CRC16 step is injective in the running CRC
(on 16-bit states): the table's high bytes are pairwise distinct, so the
state transition is invertible. -/
theorem crc16_step_inj {c1 c2 b : Nat} (hc1 : c1 < 2 ^ 16) (hc2 : c2 < 2 ^ 16)
    (h : crc16_step c1 b = crc16_step c2 b) : c1 = c2 := by
  unfold crc16_step at h
  have hj1lt : (c1 ^^^ b) &&& 255 < 256 := and_255_lt _
  have hj2lt : (c2 ^^^ b) &&& 255 < 256 := and_255_lt _
  have hhi1 : c1 >>> 8 < 2 ^ 8 := by
    rw [Nat.shiftRight_eq_div_pow]
    have : c1 / 2 ^ 8 < 2 ^ 16 / 2 ^ 8 + 1 := by
      apply Nat.lt_succ_of_le
      exact Nat.div_le_div_right (Nat.le_of_lt_succ (Nat.lt_succ_of_lt hc1))
    norm_num at this ⊢
    omega
  have hhi2 : c2 >>> 8 < 2 ^ 8 := by
    rw [Nat.shiftRight_eq_div_pow]
    have : c2 / 2 ^ 8 < 2 ^ 16 / 2 ^ 8 + 1 := by
      apply Nat.lt_succ_of_le
      exact Nat.div_le_div_right (Nat.le_of_lt_succ (Nat.lt_succ_of_lt hc2))
    norm_num at this ⊢
    omega
  have hT : CRC16_TABLE.getD ((c1 ^^^ b) &&& 255) 0 >>> 8 =
      CRC16_TABLE.getD ((c2 ^^^ b) &&& 255) 0 >>> 8 := by
    have h8 := congrArg (fun x => x >>> 8) h
    simpa [xor_low_shiftRight_eq hhi1, xor_low_shiftRight_eq hhi2] using h8
  have hj : (c1 ^^^ b) &&& 255 = (c2 ^^^ b) &&& 255 :=
    crc16_hi_inj hj1lt hj2lt hT
  have hTeq : CRC16_TABLE.getD ((c1 ^^^ b) &&& 255) 0 =
      CRC16_TABLE.getD ((c2 ^^^ b) &&& 255) 0 := by rw [hj]
  have hhi : c1 >>> 8 = c2 >>> 8 := by
    have h2 : c1 >>> 8 ^^^ CRC16_TABLE.getD ((c1 ^^^ b) &&& 255) 0 =
        c2 >>> 8 ^^^ CRC16_TABLE.getD ((c1 ^^^ b) &&& 255) 0 := by
      rw [h, hTeq]
    have := congrArg (fun x => x ^^^ CRC16_TABLE.getD ((c1 ^^^ b) &&& 255) 0) h2
    simpa [Nat.xor_cancel_right] using this
  have hmod : c1 % 256 = c2 % 256 := by
    have := hj
    rw [Nat.and_xor_distrib_right, Nat.and_xor_distrib_right] at this
    have h2 := congrArg (fun x => x ^^^ (b &&& 255)) this
    simp only [Nat.xor_cancel_right] at h2
    rw [and_255_eq_mod, and_255_eq_mod] at h2
    exact h2
  have hdiv : c1 / 256 = c2 / 256 := by
    rw [Nat.shiftRight_eq_div_pow, Nat.shiftRight_eq_div_pow] at hhi
    norm_num at hhi
    exact hhi
  omega

/-- Distinct 16-bit CRC states remain distinct after processing the same
suffix. -/
theorem crc16_run_inj (l : List Nat) : ∀ {c1 c2 : Nat}, c1 < 2 ^ 16 →
    c2 < 2 ^ 16 → c1 ≠ c2 →
    List.foldl crc16_step c1 l ≠ List.foldl crc16_step c2 l := by
  induction l with
  | nil => intro c1 c2 _ _ hne; simpa using hne
  | cons b t ih =>
    intro c1 c2 h1 h2 hne
    simp only [List.foldl_cons]
    exact ih (crc16_step_lt _ _ h1) (crc16_step_lt _ _ h2)
      (fun he => hne (crc16_step_inj h1 h2 he))

/-- Processing two different bytes from the same state yields different
states (table injectivity). -/
theorem crc16_step_byte_inj {c b1 b2 : Nat} (hb1 : b1 < 256) (hb2 : b2 < 256)
    (hne : b1 ≠ b2) : crc16_step c b1 ≠ crc16_step c b2 := by
  unfold crc16_step
  intro h
  have hj : (c ^^^ b1) &&& 255 ≠ (c ^^^ b2) &&& 255 := by
    rw [Nat.and_xor_distrib_right, Nat.and_xor_distrib_right]
    intro he
    apply hne
    have h2 := congrArg (fun x => (c &&& 255) ^^^ x)
      (by simpa [Nat.xor_comm] using he :
        (b1 &&& 255) ^^^ (c &&& 255) = (b2 &&& 255) ^^^ (c &&& 255))
    have h3 : b1 &&& 255 = b2 &&& 255 := by
      have := congrArg (fun x => x ^^^ (c &&& 255))
        (by simpa [Nat.xor_comm] using he :
          (b1 &&& 255) ^^^ (c &&& 255) = (b2 &&& 255) ^^^ (c &&& 255))
      simpa [Nat.xor_cancel_right] using this
    rw [and_255_eq_mod, and_255_eq_mod, Nat.mod_eq_of_lt hb1,
      Nat.mod_eq_of_lt hb2] at h3
    exact h3
  have hT : CRC16_TABLE.getD ((c ^^^ b1) &&& 255) 0 =
      CRC16_TABLE.getD ((c ^^^ b2) &&& 255) 0 := by
    have := congrArg (fun x => (c >>> 8) ^^^ x) h
    simpa [Nat.xor_cancel_left] using h
  exact hj (crc16_table_inj (and_255_lt _) (and_255_lt _) hT)

/-- Changing a single byte of the input changes the CRC16. -/
theorem crc16_set_ne (l : List Nat) : ∀ (i v c : Nat), c < 2 ^ 16 →
    (∀ b ∈ l, b < 256) → v < 256 → i < l.length → v ≠ l.getD i 0 →
    List.foldl crc16_step c (l.set i v) ≠ List.foldl crc16_step c l := by
  induction l with
  | nil => intro i v c _ _ _ hi; simp at hi
  | cons b t ih =>
    intro i v c hc hb hv hi hne
    cases i with
    | zero =>
      simp only [List.set_cons_zero, List.foldl_cons]
      have hbb : b < 256 := hb b (List.mem_cons_self _ _)
      have hstep : crc16_step c v ≠ crc16_step c b :=
        crc16_step_byte_inj hv hbb (by simpa using hne)
      exact crc16_run_inj t (crc16_step_lt _ _ hc) (crc16_step_lt _ _ hc) hstep
    | succ j =>
      simp only [List.set_cons_succ, List.foldl_cons]
      exact ih j v (crc16_step c b) (crc16_step_lt _ _ hc)
        (fun x hx => hb x (List.mem_cons_of_mem _ hx)) hv (by simpa using hi)
        (by simpa using hne)

/-- Recomposing a 16-bit value from its little-endian bytes:
`(crc & 255) | ((crc >> 8) << 8) = crc`. -/
theorem and_or_shift_recompose (crc : Nat) :
    (crc &&& 255) ||| ((crc >>> 8) <<< 8) = crc := by
  apply Nat.eq_of_testBit_eq
  intro k
  simp only [Nat.testBit_or, Nat.testBit_and, Nat.testBit_shiftLeft,
    Nat.testBit_shiftRight, testBit_255]
  by_cases hk : k < 8
  · simp [hk, (by omega : ¬ 8 ≤ k)]
  · have h8 : 8 + (k - 8) = k := by omega
    simp [hk, (by omega : 8 ≤ k), h8]

/-- Extracting the low byte of a little-endian 16-bit composition. -/
theorem or_shift_low {v : Nat} (h : Nat) (hv : v < 256) :
    (v ||| h <<< 8) &&& 255 = v := by
  apply Nat.eq_of_testBit_eq
  intro k
  simp only [Nat.testBit_and, Nat.testBit_or, Nat.testBit_shiftLeft,
    testBit_255]
  by_cases hk : k < 8
  · simp [hk, (by omega : ¬ 8 ≤ k)]
  · have h256 : (256 : Nat) ≤ 2 ^ k := by
      calc (256 : Nat) = 2 ^ 8 := by norm_num
      _ ≤ 2 ^ k := Nat.pow_le_pow_right (by norm_num) (by omega)
    have hvk : v.testBit k = false :=
      Nat.testBit_lt_two_pow (Nat.lt_of_lt_of_le hv h256)
    simp [hk, hvk]

/-- Extracting the high byte of a little-endian 16-bit composition. -/
theorem or_shift_high {v : Nat} (h : Nat) (hv : v < 256) :
    (v ||| h <<< 8) >>> 8 = h := by
  apply Nat.eq_of_testBit_eq
  intro k
  simp only [Nat.testBit_shiftRight, Nat.testBit_or, Nat.testBit_shiftLeft]
  have h256 : (256 : Nat) ≤ 2 ^ (8 + k) := by
    calc (256 : Nat) = 2 ^ 8 := by norm_num
    _ ≤ 2 ^ (8 + k) := Nat.pow_le_pow_right (by norm_num) (by omega)
  have hvk : v.testBit (8 + k) = false :=
    Nat.testBit_lt_two_pow (Nat.lt_of_lt_of_le hv h256)
  simp [hvk, (by omega : 8 ≤ 8 + k), (by omega : 8 + k - 8 = k)]

/-- Evaluating `verify_crc16_checksum` on a buffer that ends in two explicit
trailer bytes. -/
theorem verify_append_pair (buf : List Nat) (lo hi init : Nat) :
    verify_crc16_checksum (buf ++ [lo, hi]) init =
      (calculate_crc16 buf init == (lo ||| hi <<< 8)) := by
  unfold verify_crc16_checksum
  have hlen : (buf ++ [lo, hi]).length = buf.length + 2 := by simp
  rw [if_neg (by rw [hlen]; omega)]
  simp only [hlen, Nat.add_sub_cancel]
  rw [List.take_left' rfl, List.drop_left' rfl]
  simp only [List.getD_cons_zero, List.getD_cons_succ]

/-- `append_crc16_checksum` written as an explicit append. -/
theorem append_crc16_checksum_eq (buf : List Nat) (init : Nat) :
    append_crc16_checksum buf init =
      buf ++ [calculate_crc16 buf init &&& 255,
        calculate_crc16 buf init >>> 8] := by
  simp [append_crc16_checksum]

/-- Round trip half of C6: verifying a buffer produced by
`append_crc16_checksum` succeeds. -/
theorem verify_append_crc16 (buf : List Nat) (init : Nat) :
    verify_crc16_checksum (append_crc16_checksum buf init) init = true := by
  rw [append_crc16_checksum_eq, verify_append_pair, and_or_shift_recompose]
  simp

/-- Error-detection half of C6 for a payload byte: changing byte `i` of the
payload changes the recomputed CRC away from the unchanged trailer. -/
theorem verify_set_payload_false (buf : List Nat) (init : Nat)
    (hinit : init < 2 ^ 16) (hb : ∀ b ∈ buf, b < 256) (i v : Nat)
    (hi : i < buf.length) (hv : v < 256) (hne : v ≠ buf.getD i 0) :
    verify_crc16_checksum ((append_crc16_checksum buf init).set i v) init =
      false := by
  rw [append_crc16_checksum_eq, List.set_append_left _ _ hi,
    verify_append_pair, and_or_shift_recompose]
  have hne2 : calculate_crc16 (buf.set i v) init ≠ calculate_crc16 buf init :=
    crc16_set_ne buf i v init hinit hb hv hi hne
  simpa using hne2

/-- Error-detection half of C6 for the low CRC byte. -/
theorem verify_set_lo_false (buf : List Nat) (init : Nat) (v : Nat)
    (hv : v < 256) (hne : v ≠ calculate_crc16 buf init &&& 255) :
    verify_crc16_checksum
      ((append_crc16_checksum buf init).set buf.length v) init = false := by
  rw [append_crc16_checksum_eq, List.set_append_right _ _ (Nat.le_refl _)]
  simp only [Nat.sub_self, List.set_cons_zero]
  rw [verify_append_pair]
  have hgoal : calculate_crc16 buf init ≠ v ||| (calculate_crc16 buf init >>> 8) <<< 8 := by
    intro he
    apply hne
    have h2 := congrArg (fun x => x &&& 255) he
    simp only [or_shift_low _ hv] at h2
    exact h2.symm
  simpa using hgoal

/-- Error-detection half of C6 for the high CRC byte. -/
theorem verify_set_hi_false (buf : List Nat) (init : Nat) (v : Nat)
    (hne : v ≠ calculate_crc16 buf init >>> 8) :
    verify_crc16_checksum
      ((append_crc16_checksum buf init).set (buf.length + 1) v) init =
      false := by
  rw [append_crc16_checksum_eq, List.set_append_right _ _ (by omega)]
  simp only [Nat.add_sub_cancel_left, List.set_cons_succ, List.set_cons_zero]
  rw [verify_append_pair]
  have hlo : calculate_crc16 buf init &&& 255 < 256 := and_255_lt _
  have hgoal : calculate_crc16 buf init ≠
      (calculate_crc16 buf init &&& 255) ||| v <<< 8 := by
    intro he
    apply hne
    have h2 := congrArg (fun x => x >>> 8) he
    simp only [or_shift_high _ hlo] at h2
    exact h2.symm
  simpa using hgoal

/-- C6: for every byte buffer, appending the CRC16 (seed 13970) and then
verifying succeeds; and changing any single byte of the appended buffer
(including either trailing CRC byte) to any different byte value makes
verification fail. -/
theorem c6_crc16_append_verify (buf : List Nat) (hb : ∀ b ∈ buf, b < 256) :
    verify_crc16_checksum (append_crc16_checksum buf CRC16_INIT) CRC16_INIT =
      true ∧
    ∀ i, i < buf.length + 2 → ∀ v, v < 256 →
      v ≠ (append_crc16_checksum buf CRC16_INIT).getD i 0 →
      verify_crc16_checksum ((append_crc16_checksum buf CRC16_INIT).set i v)
        CRC16_INIT = false := by
  have hinit : CRC16_INIT < 2 ^ 16 := by norm_num [CRC16_INIT]
  refine ⟨verify_append_crc16 buf CRC16_INIT, ?_⟩
  intro i hilt v hv hne
  rcases Nat.lt_trichotomy i buf.length with hi | hi | hi
  · apply verify_set_payload_false buf CRC16_INIT hinit hb i v hi hv
    intro he
    apply hne
    rw [he, append_crc16_checksum_eq]
    exact (List.getD_append _ _ _ _ hi).symm
  · subst hi
    apply verify_set_lo_false buf CRC16_INIT v hv
    intro he
    apply hne
    rw [he, append_crc16_checksum_eq]
    rw [List.getD_append_right _ _ _ _ (Nat.le_refl _)]
    simp
  · have hi1 : i = buf.length + 1 := by omega
    subst hi1
    apply verify_set_hi_false buf CRC16_INIT v
    intro he
    apply hne
    rw [he, append_crc16_checksum_eq]
    rw [List.getD_append_right _ _ _ _ (by omega)]
    simp

/-- Witness for C6 at the concrete buffer of the crate's unit test:
`[0x55, 0x1b, 0x04, 0xa2]`, corrupting byte 0 to 0x56. -/
theorem c6_crc16_append_verify_witness :
    (∀ b ∈ [0x55, 0x1b, 0x04, 0xa2], b < 256) ∧
    verify_crc16_checksum (append_crc16_checksum [0x55, 0x1b, 0x04, 0xa2]
      CRC16_INIT) CRC16_INIT = true ∧
    verify_crc16_checksum ((append_crc16_checksum [0x55, 0x1b, 0x04, 0xa2]
      CRC16_INIT).set 0 0x56) CRC16_INIT = false := by
  have h := c6_crc16_append_verify [0x55, 0x1b, 0x04, 0xa2] (by decide)
  exact ⟨by decide, h.1, h.2 0 (by decide) 0x56 (by decide) (by decide)⟩

/-! ## Errors, counters and parameters -/

/-- The error outcomes of the engine (src/error.rs), together with the two
Rust panic outcomes the model makes explicit: an arithmetic overflow of an
unchecked `u16` addition (a panic when overflow checks are enabled, as in
the debug/test profiles) and an out-of-bounds template index. -/
inductive RMError where
  | commandNotFound (command_id : Nat)
  | invalidCommandLength (command_id : Nat)
  | invalidDataLength (length : Nat)
  | sendFailed
  | receiveFailed
  | addOverflow
  | indexOutOfBounds
deriving DecidableEq

/-- `CommandCounters` from src/can/mod.rs: the three 16-bit sequence
counters, as `Nat` values kept below `2^16` by the operations. -/
structure CommandCounters where
  joy : Nat
  led : Nat
  gimbal : Nat
deriving DecidableEq

/-- `CommandCounters::default()`: all three counters start at zero. -/
def CommandCounters.default : CommandCounters := ⟨0, 0, 0⟩

/-- Rust `u16::wrapping_add(1)`: addition modulo `2^16`. -/
def wrapping_add_1 (c : Nat) : Nat := (c + 1) % 65536

/-- Rust `+` on `u16` with overflow checks enabled (debug/test profiles):
`none` is the overflow panic. -/
def checked_add_u16 (a b : Nat) : Option Nat :=
  if a + b < 65536 then some (a + b) else none

/-- `MovementParams` from src/command/builder.rs; the `f32` axis values are
modelled as rationals. -/
structure MovementParams where
  vx : ℚ
  vy : ℚ
  vz : ℚ
deriving DecidableEq

/-- `GimbalParams` from src/command/builder.rs. -/
structure GimbalParams where
  ry : ℚ
  rz : ℚ
deriving DecidableEq

/-- `LedColor` from src/command/builder.rs (`u8` components). -/
structure LedColor where
  red : Nat
  green : Nat
  blue : Nat
deriving DecidableEq

/-- A Rust `f32 as i16` cast: truncate toward zero, saturating at the `i16`
bounds; used by `build_gimbal_command` for `(-1024.0 * r) as i16`. -/
def f32_as_i16 (q : ℚ) : ℤ :=
  max (-32768) (min 32767 (truncTowardZero q))

/-- The two's-complement 16-bit pattern of an `i16` value, as a `Nat`;
`(a & 0xFF) as u8` is its low byte and `((a >> 8) & 0xFF) as u8` (arithmetic
shift) is its high byte. -/
def i16_bits (a : ℤ) : Nat := (a % 65536).toNat

/-! ## The modelled command-template module -/

/-- Modelled from the spec: the command-template module
(`src/command/mod.rs`) and the CRC8 engine (`src/crc/crc8.rs`) are not part
of the provided source tree — only their callers in src/command/builder.rs
are.  Per spec §4.1-§4.2, the module provides: a read-only template table
addressed by a small integer command identifier (0..37), a declared length
per template (`none` when inconsistent, e.g. when subtracting the 2-byte
CRC16 trailer would underflow), predicates telling which offset is the CRC8
marker and which offsets are the little-endian counter field, the command
identifiers used by the builders, and a seeded running CRC8 over the bytes
emitted so far.  Everything proved below holds for every instantiation of
this structure; witnesses use the concrete instantiation `M0`. -/
structure CommandModule where
  command_table : List (List Nat)
  get_command_length : List Nat → Option Nat
  is_crc8_position : List Nat → Nat → Bool
  is_counter_position : List Nat → Nat → Bool
  crc8 : List Nat → Nat
  TWIST : Nat
  GIMBAL : Nat
  LED_COLOR : Nat
  LED_ON : Nat

/-- `CommandBuilder::get_command_template` from src/command/builder.rs. -/
def get_command_template (M : CommandModule) (command_no : Nat) :
    Except RMError (List Nat) :=
  match M.command_table.get? command_no with
  | some t => .ok t
  | none => .error (.commandNotFound command_no)

/-- Run a per-offset emit step for offsets `0 .. n-1` in order, starting
from the empty buffer: the builder loop `for i in 0..(command_length - 2)`
of src/command/builder.rs. -/
def build_bytes (step : Nat → List Nat → Except RMError (List Nat)) :
    Nat → Except RMError (List Nat)
  | 0 => .ok []
  | n + 1 =>
    match build_bytes step n with
    | .error e => .error e
    | .ok buf => step n buf

/-- Append the CRC16 trailer to a successfully built header
(`append_crc16_checksum(&mut header_command, CRC16_INIT)`). -/
def finish_command (r : Except RMError (List Nat)) :
    Except RMError (List Nat) :=
  match r with
  | .error e => .error e
  | .ok header_command => .ok (append_crc16_checksum header_command CRC16_INIT)

/-- Loop body of `build_command_from_template` (src/command/builder.rs):
CRC8 marker or template literal; note the source reads `template[i]`, which
panics when out of bounds.  This builder ignores the counters (its
`_counters` argument is unused in the source). -/
def from_template_step (M : CommandModule) (template : List Nat) (i : Nat)
    (buf : List Nat) : Except RMError (List Nat) :=
  if M.is_crc8_position template i then .ok (buf ++ [M.crc8 buf])
  else
    match template.get? i with
    | some tb => .ok (buf ++ [tb])
    | none => .error .indexOutOfBounds

/-- `build_command_from_template` from src/command/builder.rs. -/
def build_command_from_template (M : CommandModule) (command_no : Nat) :
    Except RMError (List Nat) :=
  match get_command_template M command_no with
  | .error e => .error e
  | .ok template =>
    match M.get_command_length template with
    | none => .error (.invalidCommandLength command_no)
    | some command_length =>
      finish_command
        (build_bytes (from_template_step M template) (command_length - 2))

/-- Loop body of `build_command_with_counter`: CRC8 marker, counter bytes
(low at offset 6, high at offset 7, nothing emitted at any other flagged
offset — exactly as the source's inner `if i == 6 / else if i == 7` falls
through), or template literal. -/
def with_counter_step (M : CommandModule) (template : List Nat)
    (counter : Nat) (i : Nat) (buf : List Nat) :
    Except RMError (List Nat) :=
  if M.is_crc8_position template i then .ok (buf ++ [M.crc8 buf])
  else if M.is_counter_position template i then
    if i = 6 then .ok (buf ++ [counter &&& 0xFF])
    else if i = 7 then .ok (buf ++ [(counter >>> 8) &&& 0xFF])
    else .ok buf
  else
    match template.get? i with
    | some tb => .ok (buf ++ [tb])
    | none => .error .indexOutOfBounds

/-- `build_command_with_counter` from src/command/builder.rs. -/
def build_command_with_counter (M : CommandModule) (command_no counter : Nat) :
    Except RMError (List Nat) :=
  match get_command_template M command_no with
  | .error e => .error e
  | .ok template =>
    match M.get_command_length template with
    | none => .error (.invalidCommandLength command_no)
    | some command_length =>
      finish_command
        (build_bytes (with_counter_step M template counter)
          (command_length - 2))

/-- `build_led_on_command` from src/command/builder.rs. -/
def build_led_on_command (M : CommandModule) (counters : CommandCounters) :
    Except RMError (List Nat) :=
  build_command_with_counter M M.LED_ON counters.led

/-- Loop body of `build_led_command`: CRC8, `led` counter bytes, RGB bytes
at offsets 14/15/16, else template literal. -/
def led_step (M : CommandModule) (template : List Nat) (led : Nat)
    (color : LedColor) (i : Nat) (buf : List Nat) :
    Except RMError (List Nat) :=
  if M.is_crc8_position template i then .ok (buf ++ [M.crc8 buf])
  else if M.is_counter_position template i then
    if i = 6 then .ok (buf ++ [led &&& 0xFF])
    else if i = 7 then .ok (buf ++ [(led >>> 8) &&& 0xFF])
    else .ok buf
  else if i = 14 then .ok (buf ++ [color.red])
  else if i = 15 then .ok (buf ++ [color.green])
  else if i = 16 then .ok (buf ++ [color.blue])
  else
    match template.get? i with
    | some tb => .ok (buf ++ [tb])
    | none => .error .indexOutOfBounds

/-- `build_led_command` from src/command/builder.rs. -/
def build_led_command (M : CommandModule) (color : LedColor)
    (counters : CommandCounters) : Except RMError (List Nat) :=
  match get_command_template M M.LED_COLOR with
  | .error e => .error e
  | .ok template =>
    match M.get_command_length template with
    | none => .error (.invalidCommandLength M.LED_COLOR)
    | some command_length =>
      finish_command
        (build_bytes (led_step M template counters.led color)
          (command_length - 2))

/-- Loop body of `build_twist_command` (src/command/builder.rs lines
124-164): CRC8, `joy` counter bytes, then the bit-packed movement fields at
offsets 11-13 and 16-24, else template literal.  `lx`, `ly`, `az` are the
already-encoded 11-bit axis values. -/
def twist_step (M : CommandModule) (template : List Nat) (joy lx ly az : Nat)
    (i : Nat) (buf : List Nat) : Except RMError (List Nat) :=
  if M.is_crc8_position template i then .ok (buf ++ [M.crc8 buf])
  else if M.is_counter_position template i then
    if i = 6 then .ok (buf ++ [joy &&& 0xFF])
    else if i = 7 then .ok (buf ++ [(joy >>> 8) &&& 0xFF])
    else .ok buf
  else if i = 13 then
    match template.get? i with
    | some tb => .ok (buf ++ [(tb &&& 0xC0) ||| ((lx >>> 5) &&& 0x3F)])
    | none => .error .indexOutOfBounds
  else if i = 12 then .ok (buf ++ [((lx <<< 3) &&& 0xFF) ||| ((ly >>> 8) &&& 0x07)])
  else if i = 11 then .ok (buf ++ [ly &&& 0xFF])
  else if i = 17 then .ok (buf ++ [(az >>> 4) &&& 0xFF])
  else if i = 16 then .ok (buf ++ [((az <<< 4) &&& 0xFF) ||| 0x08])
  else if i = 18 then .ok (buf ++ [0x00])
  else if i = 19 then .ok (buf ++ [0x02 ||| ((az <<< 2) &&& 0xFF)])
  else if i = 20 then .ok (buf ++ [(az >>> 6) &&& 0xFF])
  else if i = 21 then .ok (buf ++ [0x04])
  else if i = 22 then .ok (buf ++ [0x0C])
  else if i = 23 then .ok (buf ++ [0x00])
  else if i = 24 then .ok (buf ++ [0x04])
  else
    match template.get? i with
    | some tb => .ok (buf ++ [tb])
    | none => .error .indexOutOfBounds

/-- `build_twist_command` from src/command/builder.rs: the three axis values
go through `twist_axis_value` (`((256.0 * v + 1024.0) as i32).clamp(0, 2047)
as u16`). -/
def build_twist_command (M : CommandModule) (params : MovementParams)
    (counters : CommandCounters) : Except RMError (List Nat) :=
  match get_command_template M M.TWIST with
  | .error e => .error e
  | .ok template =>
    match M.get_command_length template with
    | none => .error (.invalidCommandLength M.TWIST)
    | some command_length =>
      let linear_x := (twist_axis_value params.vx).toNat
      let linear_y := (twist_axis_value params.vy).toNat
      let angular_z := (twist_axis_value params.vz).toNat
      finish_command
        (build_bytes
          (twist_step M template counters.joy linear_x linear_y angular_z)
          (command_length - 2))

/-- Loop body of `build_gimbal_command`: CRC8, `gimbal` counter bytes, the
signed 16-bit pitch split at offsets 13 (low) / 14 (high) and yaw at 15
(low) / 16 (high), else template literal. -/
def gimbal_step (M : CommandModule) (template : List Nat)
    (gimbal ay az : Nat) (i : Nat) (buf : List Nat) :
    Except RMError (List Nat) :=
  if M.is_crc8_position template i then .ok (buf ++ [M.crc8 buf])
  else if M.is_counter_position template i then
    if i = 6 then .ok (buf ++ [gimbal &&& 0xFF])
    else if i = 7 then .ok (buf ++ [(gimbal >>> 8) &&& 0xFF])
    else .ok buf
  else if i = 14 then .ok (buf ++ [(ay >>> 8) &&& 0xFF])
  else if i = 13 then .ok (buf ++ [ay &&& 0xFF])
  else if i = 16 then .ok (buf ++ [(az >>> 8) &&& 0xFF])
  else if i = 15 then .ok (buf ++ [az &&& 0xFF])
  else
    match template.get? i with
    | some tb => .ok (buf ++ [tb])
    | none => .error .indexOutOfBounds

/-- `build_gimbal_command` from src/command/builder.rs:
`angular_y = (-1024.0 * ry) as i16`, `angular_z = (-1024.0 * rz) as i16`;
the emitted bytes are taken from the two's-complement 16-bit patterns, which
is what the source's `(x & 0xFF) as u8` / `((x >> 8) & 0xFF) as u8`
(arithmetic shift) produce. -/
def build_gimbal_command (M : CommandModule) (params : GimbalParams)
    (counters : CommandCounters) : Except RMError (List Nat) :=
  match get_command_template M M.GIMBAL with
  | .error e => .error e
  | .ok template =>
    match M.get_command_length template with
    | none => .error (.invalidCommandLength M.GIMBAL)
    | some command_length =>
      let angular_y := i16_bits (f32_as_i16 (-1024 * params.ry))
      let angular_z := i16_bits (f32_as_i16 (-1024 * params.rz))
      finish_command
        (build_bytes
          (gimbal_step M template counters.gimbal angular_y angular_z)
          (command_length - 2))

/-- `build_boot_sequence` from src/command/builder.rs: concatenate the
commands 26..=34 (each built from its template with default counters),
followed by the LED-on command with default counters. -/
def build_boot_sequence (M : CommandModule) : Except RMError (List Nat) :=
  match (List.range' 26 9).foldl
      (fun (acc : Except RMError (List Nat)) command_no =>
        match acc with
        | .error e => .error e
        | .ok buf =>
          match build_command_from_template M command_no with
          | .error e => .error e
          | .ok cmd => .ok (buf ++ cmd))
      (Except.ok ([] : List Nat)) with
  | .error e => .error e
  | .ok boot_commands =>
    match build_led_on_command M CommandCounters.default with
    | .error e => .error e
    | .ok led_on_cmd => .ok (boot_commands ++ led_on_cmd)

/-! ## Transport and control session (src/can/mod.rs, src/control/mod.rs) -/

/-- The observable state of a `RoboMaster` session together with the wire
log: the sequence counters and the `is_initialized` flag (src/control/mod.rs),
plus the frames successfully written to the bus in order and the number of
write attempts made so far (which indexes the transport environment). -/
structure SessionWorld where
  counters : CommandCounters
  is_initialized : Bool
  sent : List (List Nat)
  attempts : Nat
deriving DecidableEq

/-- `CanInterface::send_message` from src/can/mod.rs: reject frames longer
than 8 bytes, then attempt the bus write; the environment `env` says whether
the k-th write attempt succeeds (`SendFailed` otherwise). -/
def send_message (env : Nat → Bool) (w : SessionWorld) (data : List Nat) :
    SessionWorld × Option RMError :=
  if data.length > CAN_MAX_DATA_LEN then
    (w, some (.invalidDataLength data.length))
  else if env w.attempts then
    ({ w with sent := w.sent ++ [data], attempts := w.attempts + 1 }, none)
  else
    ({ w with attempts := w.attempts + 1 }, some .sendFailed)

/-- `CanInterface::send_messages` from src/can/mod.rs: send in order,
stopping at the first failure. -/
def send_messages (env : Nat → Bool) :
    SessionWorld → List (List Nat) → SessionWorld × Option RMError
  | w, [] => (w, none)
  | w, msg :: rest =>
    match send_message env w msg with
    | (w1, none) => send_messages env w1 rest
    | (w1, some e) => (w1, some e)

/-- `RoboMaster::initialize` from src/control/mod.rs: no-op when already
initialized; otherwise build the boot sequence, split and send it, and set
the flag.  (The fixed 500 ms settle delay is pure timing and is not
modelled.) -/
def initialize_robot (M : CommandModule) (env : Nat → Bool) (w : SessionWorld) :
    SessionWorld × Option RMError :=
  if w.is_initialized then (w, none)
  else
    match build_boot_sequence M with
    | .error e => (w, some e)
    | .ok boot_command =>
      match send_messages env w (split_command boot_command) with
      | (w1, none) => ({ w1 with is_initialized := true }, none)
      | (w1, some e) => (w1, some e)

/-- `RoboMaster::ensure_initialized` from src/control/mod.rs. -/
def ensure_initialized (M : CommandModule) (env : Nat → Bool)
    (w : SessionWorld) : SessionWorld × Option RMError :=
  if !w.is_initialized then initialize_robot M env w else (w, none)

/-- `RoboMaster::move_robot` from src/control/mod.rs: ensure initialized,
build the twist command and the coupled gimbal command (pitch 0, yaw =
`movement.vz`), send both bursts in order, then bump `joy` and `gimbal`
with `wrapping_add(1)`. -/
def move_robot (M : CommandModule) (env : Nat → Bool) (w : SessionWorld)
    (movement : MovementParams) : SessionWorld × Option RMError :=
  match ensure_initialized M env w with
  | (w1, some e) => (w1, some e)
  | (w1, none) =>
    match build_twist_command M movement w1.counters with
    | .error e => (w1, some e)
    | .ok twist_cmd =>
      let twist_messages := split_command twist_cmd
      match build_gimbal_command M { ry := 0, rz := movement.vz }
          w1.counters with
      | .error e => (w1, some e)
      | .ok gimbal_cmd =>
        let gimbal_messages := split_command gimbal_cmd
        match send_messages env w1 twist_messages with
        | (w2, some e) => (w2, some e)
        | (w2, none) =>
          match send_messages env w2 gimbal_messages with
          | (w3, some e) => (w3, some e)
          | (w3, none) =>
            ({ w3 with counters :=
                { w3.counters with
                  joy := wrapping_add_1 w3.counters.joy,
                  gimbal := wrapping_add_1 w3.counters.gimbal } }, none)

/-- `RoboMaster::control_led` from src/control/mod.rs: build and send the
LED command, then `self.command_counters.led += 1` — an unchecked `u16`
addition, hence the possible `addOverflow` outcome. -/
def control_led (M : CommandModule) (env : Nat → Bool) (w : SessionWorld)
    (color : LedColor) : SessionWorld × Option RMError :=
  match build_led_command M color w.counters with
  | .error e => (w, some e)
  | .ok led_cmd =>
    match send_messages env w (split_command led_cmd) with
    | (w1, some e) => (w1, some e)
    | (w1, none) =>
      match checked_add_u16 w1.counters.led 1 with
      | some n => ({ w1 with counters := { w1.counters with led := n } }, none)
      | none => (w1, some .addOverflow)

/-- `RoboMaster::send_touch` from src/control/mod.rs: send the two touch
arrays, then `self.command_counters.joy += 1` — again an unchecked `u16`
addition. -/
def send_touch (env : Nat → Bool) (w : SessionWorld) :
    SessionWorld × Option RMError :=
  let touch_messages := build_touch_command w.counters.joy
  match send_messages env w touch_messages with
  | (w1, some e) => (w1, some e)
  | (w1, none) =>
    match checked_add_u16 w1.counters.joy 1 with
    | some n => ({ w1 with counters := { w1.counters with joy := n } }, none)
    | none => (w1, some .addOverflow)

/-! ## Receive path (src/can/mod.rs, receive_and_process) -/

/-- A CAN arbitration identifier: standard (11-bit) or extended. -/
inductive CanId where
  | standard (raw : Nat)
  | extended (raw : Nat)
deriving DecidableEq

/-- A received CAN frame. -/
structure CanFrame where
  id : CanId
  data : List Nat
deriving DecidableEq

/-- The fixed 6-byte marker of the telemetry counter frame. -/
def telemetry_marker : List Nat := [0x55, 0x1b, 0x04, 0x75, 0x09, 0xc3]

/-- `CanInterface::receive_and_process` from src/can/mod.rs.  The argument
`recv` is the outcome of `receive_message` (`.error` a transport failure,
`.ok none` a timeout, `.ok (some frame)` a received frame).  A standard
frame with ID 0x201 whose payload has at least 8 bytes and starts with the
marker has its bytes 6-7 decoded little-endian, and `joy` is set to
`counter + 1` — an unchecked `u16` addition.  Everything else is ignored. -/
def receive_and_process (recv : Except RMError (Option CanFrame))
    (cmd_counters : CommandCounters) : CommandCounters × Option RMError :=
  match recv with
  | .error e => (cmd_counters, some e)
  | .ok none => (cmd_counters, none)
  | .ok (some frame) =>
    match frame.id with
    | .extended _ => (cmd_counters, none)
    | .standard frame_id =>
      if frame_id = ROBOMASTER_CAN_ID then
        if 8 ≤ frame.data.length ∧ frame.data.take 6 = telemetry_marker then
          let counter := frame.data.getD 6 0 ||| (frame.data.getD 7 0 <<< 8)
          match checked_add_u16 counter 1 with
          | some n => ({ cmd_counters with joy := n }, none)
          | none => (cmd_counters, some .addOverflow)
        else (cmd_counters, none)
      else (cmd_counters, none)

/-! ## Session lemmas -/

/-- `send_message` never touches the counters or the flag. -/
theorem send_message_inv (env : Nat → Bool) (w : SessionWorld)
    (data : List Nat) :
    ((send_message env w data).1).counters = w.counters ∧
    ((send_message env w data).1).is_initialized = w.is_initialized := by
  unfold send_message
  split_ifs <;> exact ⟨rfl, rfl⟩

/-- `send_messages` never touches the counters or the flag. -/
theorem send_messages_inv (env : Nat → Bool) (msgs : List (List Nat)) :
    ∀ w : SessionWorld,
      ((send_messages env w msgs).1).counters = w.counters ∧
      ((send_messages env w msgs).1).is_initialized = w.is_initialized := by
  induction msgs with
  | nil => intro w; exact ⟨rfl, rfl⟩
  | cons msg rest ih =>
    intro w
    have hw1 := send_message_inv env w msg
    simp only [send_messages]
    rcases hsm : send_message env w msg with ⟨w1, err⟩
    rw [hsm] at hw1
    cases err with
    | none =>
      have h1 := ih w1
      exact ⟨h1.1.trans hw1.1, h1.2.trans hw1.2⟩
    | some e => exact hw1

/-- A successful `send_message` appends exactly its frame to the wire log. -/
theorem send_message_ok (env : Nat → Bool) (w w' : SessionWorld)
    (data : List Nat) (h : send_message env w data = (w', none)) :
    w'.sent = w.sent ++ [data] := by
  unfold send_message at h
  split_ifs at h <;> simp only [Prod.mk.injEq] at h
  · exact absurd h.2 (by simp)
  · rw [← h.1]
  · exact absurd h.2 (by simp)

/-- A successful `send_messages` appends exactly its frames, in order. -/
theorem send_messages_ok (env : Nat → Bool) (msgs : List (List Nat)) :
    ∀ w w' : SessionWorld, send_messages env w msgs = (w', none) →
      w'.sent = w.sent ++ msgs := by
  induction msgs with
  | nil =>
    intro w w' h
    simp only [send_messages, Prod.mk.injEq] at h
    simp [← h.1]
  | cons msg rest ih =>
    intro w w' h
    simp only [send_messages] at h
    rcases hsm : send_message env w msg with ⟨w1, err⟩
    rw [hsm] at h
    cases err with
    | none =>
      have h1 := ih w1 w' h
      have h2 := send_message_ok env w w1 msg hsm
      rw [h1, h2, List.append_assoc, List.singleton_append]
    | some e => simp only [Prod.mk.injEq] at h; exact absurd h.2 (by simp)

/-- `initialize_robot` never touches the counters. -/
theorem initialize_robot_counters (M : CommandModule) (env : Nat → Bool)
    (w : SessionWorld) :
    ((initialize_robot M env w).1).counters = w.counters := by
  unfold initialize_robot
  split_ifs with hinit
  · rfl
  · cases hb : build_boot_sequence M with
    | error e => rfl
    | ok boot =>
      dsimp only
      rcases hs : send_messages env w (split_command boot) with ⟨w1, err⟩
      have hw1 := send_messages_inv env (split_command boot) w
      rw [hs] at hw1
      cases err with
      | none => exact hw1.1
      | some e => exact hw1.1

/-- A successful `initialize_robot` on an uninitialized session sends the
split boot sequence and sets the flag. -/
theorem initialize_robot_ok_fresh (M : CommandModule) (env : Nat → Bool)
    (w w' : SessionWorld) (hfresh : w.is_initialized = false)
    (h : initialize_robot M env w = (w', none)) :
    ∃ boot, build_boot_sequence M = .ok boot ∧
      w'.sent = w.sent ++ split_command boot ∧
      w'.is_initialized = true ∧ w'.counters = w.counters := by
  unfold initialize_robot at h
  rw [hfresh] at h
  simp only [Bool.false_eq_true, if_false] at h
  cases hb : build_boot_sequence M with
  | error e => rw [hb] at h; simp only [Prod.mk.injEq] at h; exact absurd h.2 (by simp)
  | ok boot =>
    rw [hb] at h
    dsimp only at h
    rcases hs : send_messages env w (split_command boot) with ⟨w1, err⟩
    rw [hs] at h
    have hw1 := send_messages_inv env (split_command boot) w
    rw [hs] at hw1
    cases err with
    | none =>
      simp only [Prod.mk.injEq] at h
      refine ⟨boot, rfl, ?_, ?_, ?_⟩
      · rw [← h.1]
        exact send_messages_ok env (split_command boot) w w1 hs
      · rw [← h.1]
      · rw [← h.1]
        exact hw1.1
    | some e => simp only [Prod.mk.injEq] at h; exact absurd h.2 (by simp)

/-- `initialize_robot` on an already-initialized session is a no-op
success. -/
theorem initialize_robot_already (M : CommandModule) (env : Nat → Bool)
    (w : SessionWorld) (hinit : w.is_initialized = true) :
    initialize_robot M env w = (w, none) := by
  unfold initialize_robot
  rw [hinit]
  simp

/-- A successful `ensure_initialized` leaves the counters alone, ends
initialized, and appends exactly the boot frames when the session was
fresh — nothing when it was already initialized. -/
theorem ensure_initialized_ok (M : CommandModule) (env : Nat → Bool)
    (w w1 : SessionWorld) (h : ensure_initialized M env w = (w1, none)) :
    w1.counters = w.counters ∧ w1.is_initialized = true ∧
    ∃ pre, w1.sent = w.sent ++ pre ∧
      (w.is_initialized = true → pre = []) ∧
      (w.is_initialized = false →
        ∃ boot, build_boot_sequence M = .ok boot ∧
          pre = split_command boot) := by
  unfold ensure_initialized at h
  cases hflag : w.is_initialized with
  | true =>
    rw [hflag] at h
    simp only [Bool.not_true, Bool.false_eq_true, if_false, Prod.mk.injEq] at h
    refine ⟨by rw [← h.1], by rw [← h.1]; exact hflag, [], by simp [← h.1],
      fun _ => rfl, fun hcontra => by simp [hflag] at hcontra⟩
  | false =>
    rw [hflag] at h
    simp only [Bool.not_false, if_true] at h
    obtain ⟨boot, hb, hsent, hflag', hcnt⟩ :=
      initialize_robot_ok_fresh M env w w1 hflag h
    exact ⟨hcnt, hflag', split_command boot, hsent,
      fun hcontra => by simp [hflag] at hcontra, fun _ => ⟨boot, hb, rfl⟩⟩

/-- `ensure_initialized` never touches the counters (either outcome). -/
theorem ensure_initialized_counters (M : CommandModule) (env : Nat → Bool)
    (w : SessionWorld) :
    ((ensure_initialized M env w).1).counters = w.counters := by
  unfold ensure_initialized
  split_ifs with h
  · exact initialize_robot_counters M env w
  · rfl

/-- Decomposition of a successful `move_robot` call: the twist and gimbal
commands are built from the entry counters, their frames are appended to the
wire log in order after whatever `ensure_initialized` sent, and exactly
`joy` and `gimbal` are bumped by one, with wraparound. -/
theorem move_robot_ok (M : CommandModule) (env : Nat → Bool)
    (w w' : SessionWorld) (p : MovementParams)
    (h : move_robot M env w p = (w', none)) :
    ∃ w1 tw gi,
      ensure_initialized M env w = (w1, none) ∧
      w1.counters = w.counters ∧
      w1.is_initialized = true ∧
      build_twist_command M p w.counters = .ok tw ∧
      build_gimbal_command M { ry := 0, rz := p.vz } w.counters = .ok gi ∧
      w'.sent = w1.sent ++ split_command tw ++ split_command gi ∧
      w'.counters.joy = wrapping_add_1 w.counters.joy ∧
      w'.counters.gimbal = wrapping_add_1 w.counters.gimbal ∧
      w'.counters.led = w.counters.led ∧
      w'.is_initialized = true := by
  unfold move_robot at h
  rcases he : ensure_initialized M env w with ⟨w1, err1⟩
  rw [he] at h
  cases err1 with
  | some e => dsimp only at h; simp only [Prod.mk.injEq] at h; exact absurd h.2 (by simp)
  | none =>
    dsimp only at h
    obtain ⟨hcnt, hflag, -⟩ := ensure_initialized_ok M env w w1 he
    cases htw : build_twist_command M p w1.counters with
    | error e =>
      rw [htw] at h; dsimp only at h; simp only [Prod.mk.injEq] at h
      exact absurd h.2 (by simp)
    | ok tw =>
      rw [htw] at h
      dsimp only at h
      cases hgi : build_gimbal_command M { ry := 0, rz := p.vz } w1.counters with
      | error e =>
        rw [hgi] at h; dsimp only at h; simp only [Prod.mk.injEq] at h
        exact absurd h.2 (by simp)
      | ok gi =>
        rw [hgi] at h
        dsimp only at h
        rcases hs1 : send_messages env w1 (split_command tw) with ⟨w2, err2⟩
        rw [hs1] at h
        cases err2 with
        | some e => simp only [Prod.mk.injEq] at h; exact absurd h.2 (by simp)
        | none =>
          dsimp only at h
          rcases hs2 : send_messages env w2 (split_command gi) with ⟨w3, err3⟩
          rw [hs2] at h
          cases err3 with
          | some e => simp only [Prod.mk.injEq] at h; exact absurd h.2 (by simp)
          | none =>
            simp only [Prod.mk.injEq] at h
            have hsent2 := send_messages_ok env (split_command tw) w1 w2 hs1
            have hsent3 := send_messages_ok env (split_command gi) w2 w3 hs2
            have hinv2 := send_messages_inv env (split_command tw) w1
            rw [hs1] at hinv2
            have hinv3 := send_messages_inv env (split_command gi) w2
            rw [hs2] at hinv3
            refine ⟨w1, tw, gi, rfl, hcnt, hflag,
              by rw [← hcnt]; exact htw, by rw [← hcnt]; exact hgi,
              ?_, ?_, ?_, ?_, ?_⟩
            · rw [← h.1]
              dsimp only
              rw [hsent3, hsent2]
            · rw [← h.1]
              dsimp only
              rw [hinv3.1, hinv2.1, hcnt]
            · rw [← h.1]
              dsimp only
              rw [hinv3.1, hinv2.1, hcnt]
            · rw [← h.1]
              dsimp only
              rw [hinv3.1, hinv2.1, hcnt]
            · rw [← h.1]
              dsimp only
              rw [hinv3.2, hinv2.2, hflag]

/-- C4: every successful `move_robot` call sends both the Twist command
built from its params and, in the same call, a Gimbal command with pitch 0
and yaw equal to the same `vz`, and bumps `joy` and `gimbal` by exactly one
each (mod `2^16`), leaving `led` alone — regardless of the previous call's
values (the statement holds for every entry state `w`). -/
theorem c4_move_sends_twist_and_gimbal (M : CommandModule) (env : Nat → Bool)
    (w w' : SessionWorld) (p : MovementParams)
    (h : move_robot M env w p = (w', none)) :
    ∃ pre tw gi,
      build_twist_command M p w.counters = .ok tw ∧
      build_gimbal_command M { ry := 0, rz := p.vz } w.counters = .ok gi ∧
      w'.sent = w.sent ++ pre ++ split_command tw ++ split_command gi ∧
      (w.is_initialized = true → pre = []) ∧
      w'.counters.joy = wrapping_add_1 w.counters.joy ∧
      w'.counters.gimbal = wrapping_add_1 w.counters.gimbal ∧
      w'.counters.led = w.counters.led := by
  obtain ⟨w1, tw, gi, he, hcnt, hflag, htw, hgi, hsent, hj, hg, hl, -⟩ :=
    move_robot_ok M env w w' p h
  obtain ⟨-, -, pre, hpre, hpre_init, -⟩ := ensure_initialized_ok M env w w1 he
  exact ⟨pre, tw, gi, htw, hgi, by rw [hsent, hpre], hpre_init, hj, hg, hl⟩

/-- C3: from a fresh (uninitialized) session, the first `move_robot` sends
exactly one boot burst before its own movement frames and ends initialized;
`initialize_robot` on the now-initialized session is a no-op success, and a
second `move_robot` appends only its own twist and gimbal frames — no
further boot sequence. -/
theorem c3_lazy_init_once (M : CommandModule) (env : Nat → Bool)
    (w w1 w2 : SessionWorld) (p q : MovementParams)
    (hfresh : w.is_initialized = false) (hsent0 : w.sent = [])
    (h1 : move_robot M env w p = (w1, none))
    (h2 : move_robot M env w1 q = (w2, none)) :
    (∃ boot tw gi, build_boot_sequence M = .ok boot ∧
      w1.sent = split_command boot ++ split_command tw ++ split_command gi ∧
      w1.is_initialized = true) ∧
    initialize_robot M env w1 = (w1, none) ∧
    (∃ tw2 gi2,
      w2.sent = w1.sent ++ split_command tw2 ++ split_command gi2) := by
  obtain ⟨w1', tw, gi, he, hcnt, hflag, htw, hgi, hsent, -, -, -, hflag'⟩ :=
    move_robot_ok M env w w1 p h1
  obtain ⟨-, -, pre, hpre, -, hpre_fresh⟩ := ensure_initialized_ok M env w w1' he
  obtain ⟨boot, hb, hpre_eq⟩ := hpre_fresh hfresh
  refine ⟨⟨boot, tw, gi, hb, ?_, hflag'⟩,
    initialize_robot_already M env w1 hflag', ?_⟩
  · rw [hsent, hpre, hpre_eq, hsent0, List.nil_append]
  · obtain ⟨w1'', tw2, gi2, he2, -, -, -, -, hsent2, -, -, -, -⟩ :=
      move_robot_ok M env w1 w2 q h2
    obtain ⟨-, -, pre2, hpre2, hpre2_init, -⟩ :=
      ensure_initialized_ok M env w1 w1'' he2
    have hpre2_nil : pre2 = [] := hpre2_init hflag'
    exact ⟨tw2, gi2, by rw [hsent2, hpre2, hpre2_nil, List.append_nil]⟩

/-- C10: whenever `move_robot`, `control_led` or `send_touch` returns an
error — template lookup failure, a transport failure on any frame, or the
overflow panic of the unchecked increment — none of the three sequence
counters has been modified: the increments happen only after every frame of
the call's command(s) was sent successfully. -/
theorem c10_no_increment_on_error (M : CommandModule) (env : Nat → Bool)
    (w w' : SessionWorld) (e : RMError) (p : MovementParams)
    (color : LedColor) :
    (move_robot M env w p = (w', some e) → w'.counters = w.counters) ∧
    (control_led M env w color = (w', some e) → w'.counters = w.counters) ∧
    (send_touch env w = (w', some e) → w'.counters = w.counters) := by
  refine ⟨?_, ?_, ?_⟩
  · intro h
    unfold move_robot at h
    rcases he : ensure_initialized M env w with ⟨w1, err1⟩
    rw [he] at h
    have hcnt1 : w1.counters = w.counters := by
      have := ensure_initialized_counters M env w
      rw [he] at this
      exact this
    cases err1 with
    | some e1 =>
      dsimp only at h; simp only [Prod.mk.injEq] at h
      rw [← h.1]; exact hcnt1
    | none =>
      dsimp only at h
      cases htw : build_twist_command M p w1.counters with
      | error e1 =>
        rw [htw] at h; dsimp only at h; simp only [Prod.mk.injEq] at h
        rw [← h.1]; exact hcnt1
      | ok tw =>
        rw [htw] at h; dsimp only at h
        cases hgi : build_gimbal_command M { ry := 0, rz := p.vz }
            w1.counters with
        | error e1 =>
          rw [hgi] at h; dsimp only at h; simp only [Prod.mk.injEq] at h
          rw [← h.1]; exact hcnt1
        | ok gi =>
          rw [hgi] at h; dsimp only at h
          rcases hs1 : send_messages env w1 (split_command tw) with ⟨w2, err2⟩
          rw [hs1] at h
          have hcnt2 : w2.counters = w1.counters := by
            have := send_messages_inv env (split_command tw) w1
            rw [hs1] at this
            exact this.1
          cases err2 with
          | some e2 =>
            simp only [Prod.mk.injEq] at h
            rw [← h.1, hcnt2]; exact hcnt1
          | none =>
            dsimp only at h
            rcases hs2 : send_messages env w2 (split_command gi) with ⟨w3, err3⟩
            rw [hs2] at h
            have hcnt3 : w3.counters = w2.counters := by
              have := send_messages_inv env (split_command gi) w2
              rw [hs2] at this
              exact this.1
            cases err3 with
            | some e3 =>
              simp only [Prod.mk.injEq] at h
              rw [← h.1, hcnt3, hcnt2]; exact hcnt1
            | none =>
              simp only [Prod.mk.injEq] at h
              exact absurd h.2 (by simp)
  · intro h
    unfold control_led at h
    cases hl : build_led_command M color w.counters with
    | error e1 =>
      rw [hl] at h; dsimp only at h; simp only [Prod.mk.injEq] at h
      rw [← h.1]
    | ok cmd =>
      rw [hl] at h; dsimp only at h
      rcases hs : send_messages env w (split_command cmd) with ⟨w1, err⟩
      rw [hs] at h
      have hcnt1 : w1.counters = w.counters := by
        have := send_messages_inv env (split_command cmd) w
        rw [hs] at this
        exact this.1
      cases err with
      | some e1 =>
        simp only [Prod.mk.injEq] at h
        rw [← h.1]; exact hcnt1
      | none =>
        dsimp only at h
        cases hca : checked_add_u16 w1.counters.led 1 with
        | some n =>
          rw [hca] at h; dsimp only at h; simp only [Prod.mk.injEq] at h
          exact absurd h.2 (by simp)
        | none =>
          rw [hca] at h; dsimp only at h; simp only [Prod.mk.injEq] at h
          rw [← h.1]; exact hcnt1
  · intro h
    unfold send_touch at h
    dsimp only at h
    rcases hs : send_messages env w (build_touch_command w.counters.joy)
      with ⟨w1, err⟩
    rw [hs] at h
    have hcnt1 : w1.counters = w.counters := by
      have := send_messages_inv env (build_touch_command w.counters.joy) w
      rw [hs] at this
      exact this.1
    cases err with
    | some e1 =>
      simp only [Prod.mk.injEq] at h
      rw [← h.1]; exact hcnt1
    | none =>
      dsimp only at h
      cases hca : checked_add_u16 w1.counters.joy 1 with
      | some n =>
        rw [hca] at h; dsimp only at h; simp only [Prod.mk.injEq] at h
        exact absurd h.2 (by simp)
      | none =>
        rw [hca] at h; dsimp only at h; simp only [Prod.mk.injEq] at h
        rw [← h.1]; exact hcnt1

/-! ## Concrete instantiation for witnesses, and the counter claims -/

/-- A concrete instantiation of the modelled command module, used in
witnesses: 38 templates (as in the source's table) that are all empty with
declared length 2, so every template-driven command is exactly its CRC16
trailer; no CRC8 marker or counter offsets. -/
def M0 : CommandModule where
  command_table := List.replicate 38 []
  get_command_length := fun _ => some 2
  is_crc8_position := fun _ _ => false
  is_counter_position := fun _ _ => false
  crc8 := fun _ => 0
  TWIST := 0
  GIMBAL := 1
  LED_COLOR := 2
  LED_ON := 3

/-- A transport environment in which every bus write succeeds. -/
def envT : Nat → Bool := fun _ => true

/-- A transport environment in which every bus write fails. -/
def envF : Nat → Bool := fun _ => false

/-- C2 (code evaluation at the failing input): `move_robot` wraps `joy` and
`gimbal` at 65535 back to 0 without error (it uses `wrapping_add`), but
`control_led` at `led = 65535` and `send_touch` at `joy = 65535` hit the
overflow of the unchecked `+= 1` — the panic outcome — and leave the
counter at 65535 instead of wrapping. -/
theorem c2_unchecked_increment_overflows :
    (move_robot M0 envT ⟨⟨65535, 0, 65535⟩, true, [], 0⟩ ⟨0, 0, 0⟩).2 =
      none ∧
    (move_robot M0 envT ⟨⟨65535, 0, 65535⟩, true, [], 0⟩
      ⟨0, 0, 0⟩).1.counters.joy = 0 ∧
    (move_robot M0 envT ⟨⟨65535, 0, 65535⟩, true, [], 0⟩
      ⟨0, 0, 0⟩).1.counters.gimbal = 0 ∧
    (control_led M0 envT ⟨⟨0, 65535, 0⟩, true, [], 0⟩ ⟨255, 0, 0⟩).2 =
      some RMError.addOverflow ∧
    (control_led M0 envT ⟨⟨0, 65535, 0⟩, true, [], 0⟩
      ⟨255, 0, 0⟩).1.counters.led = 65535 ∧
    (send_touch envT ⟨⟨65535, 0, 0⟩, true, [], 0⟩).2 =
      some RMError.addOverflow ∧
    (send_touch envT ⟨⟨65535, 0, 0⟩, true, [], 0⟩).1.counters.joy = 65535 ∧
    wrapping_add_1 65535 = 0 := by
  refine ⟨?_, ?_, ?_, ?_, ?_, ?_, ?_, rfl⟩ <;> decide

/-! ## C9: the receive path -/

/-- C9 counterexample: a standard frame with ID 0x201, the telemetry marker
and counter bytes `0xFF 0xFF` (decoded counter 65535).  The claim says the
local joy counter is updated to `decoded + 1` and the call succeeds; instead
the unchecked `u16` addition overflows (a panic under overflow checks), the
counters stay untouched and the outcome is not a success. -/
theorem c9_overflow_counterexample :
    receive_and_process
      (.ok (some ⟨.standard 0x201,
        [0x55, 0x1b, 0x04, 0x75, 0x09, 0xc3, 0xff, 0xff]⟩)) ⟨7, 3, 5⟩ =
      (⟨7, 3, 5⟩, some RMError.addOverflow) ∧
    (receive_and_process
      (.ok (some ⟨.standard 0x201,
        [0x55, 0x1b, 0x04, 0x75, 0x09, 0xc3, 0xff, 0xff]⟩)) ⟨7, 3, 5⟩).2 ≠
      none := by
  refine ⟨by decide, by decide⟩

/-- C9 amended: a received standard frame with arbitration ID 0x201 whose
payload has at least 8 bytes and starts with the 6-byte telemetry marker
sets `joy` to `decoded + 1` (little-endian decode of bytes 6-7) whenever
`decoded < 65535`; at `decoded = 65535` the unchecked add overflows (panic
outcome) and the counters stay unchanged.  Every other frame — wrong or
extended identifier, short payload, non-matching marker — and a timeout
leave the counters unchanged and return success. -/
theorem c9_receive_resync (c : CommandCounters) (frame : CanFrame) :
    (∀ raw, frame.id = .standard raw → raw = ROBOMASTER_CAN_ID →
      8 ≤ frame.data.length → frame.data.take 6 = telemetry_marker →
      frame.data.getD 6 0 ||| (frame.data.getD 7 0 <<< 8) < 65535 →
      receive_and_process (.ok (some frame)) c =
        ({ c with
            joy := (frame.data.getD 6 0 ||| (frame.data.getD 7 0 <<< 8)) + 1 },
          none)) ∧
    (∀ raw, frame.id = .standard raw → raw = ROBOMASTER_CAN_ID →
      8 ≤ frame.data.length → frame.data.take 6 = telemetry_marker →
      frame.data.getD 6 0 ||| (frame.data.getD 7 0 <<< 8) = 65535 →
      receive_and_process (.ok (some frame)) c =
        (c, some RMError.addOverflow)) ∧
    (∀ raw, frame.id = .standard raw → raw ≠ ROBOMASTER_CAN_ID →
      receive_and_process (.ok (some frame)) c = (c, none)) ∧
    (∀ raw, frame.id = .standard raw → frame.data.length < 8 →
      receive_and_process (.ok (some frame)) c = (c, none)) ∧
    (∀ raw, frame.id = .standard raw → frame.data.take 6 ≠ telemetry_marker →
      receive_and_process (.ok (some frame)) c = (c, none)) ∧
    (∀ raw, frame.id = .extended raw →
      receive_and_process (.ok (some frame)) c = (c, none)) ∧
    receive_and_process (.ok none) c = (c, none) := by
  refine ⟨?_, ?_, ?_, ?_, ?_, ?_, rfl⟩
  · intro raw hid hraw hlen hmark hlt
    unfold receive_and_process
    dsimp only
    rw [hid]
    dsimp only
    rw [if_pos hraw, if_pos ⟨hlen, hmark⟩]
    unfold checked_add_u16
    rw [if_pos (by omega :
      (frame.data.getD 6 0 ||| frame.data.getD 7 0 <<< 8) + 1 < 65536)]
  · intro raw hid hraw hlen hmark heq
    unfold receive_and_process
    dsimp only
    rw [hid]
    dsimp only
    rw [if_pos hraw, if_pos ⟨hlen, hmark⟩]
    unfold checked_add_u16
    rw [heq, if_neg (by omega)]
  · intro raw hid hraw
    unfold receive_and_process
    dsimp only
    rw [hid]
    dsimp only
    rw [if_neg hraw]
  · intro raw hid hlen
    unfold receive_and_process
    dsimp only
    rw [hid]
    dsimp only
    by_cases hraw : raw = ROBOMASTER_CAN_ID
    · rw [if_pos hraw, if_neg (by omega)]
    · rw [if_neg hraw]
  · intro raw hid hmark
    unfold receive_and_process
    dsimp only
    rw [hid]
    dsimp only
    by_cases hraw : raw = ROBOMASTER_CAN_ID
    · rw [if_pos hraw, if_neg (by intro hc; exact hmark hc.2)]
    · rw [if_neg hraw]
  · intro raw hid
    unfold receive_and_process
    dsimp only
    rw [hid]

/-- Witness for C9 at a concrete matching frame carrying counter 16: the joy
counter resynchronizes to 17; and a concrete wrong-ID frame is ignored. -/
theorem c9_receive_resync_witness :
    receive_and_process
      (.ok (some ⟨.standard 0x201,
        [0x55, 0x1b, 0x04, 0x75, 0x09, 0xc3, 0x10, 0x00]⟩)) ⟨7, 3, 5⟩ =
      (⟨17, 3, 5⟩, none) ∧
    receive_and_process
      (.ok (some ⟨.standard 0x200,
        [0x55, 0x1b, 0x04, 0x75, 0x09, 0xc3, 0x10, 0x00]⟩)) ⟨7, 3, 5⟩ =
      (⟨7, 3, 5⟩, none) := by
  constructor
  · have h := (c9_receive_resync ⟨7, 3, 5⟩
      ⟨.standard 0x201,
        [0x55, 0x1b, 0x04, 0x75, 0x09, 0xc3, 0x10, 0x00]⟩).1
      0x201 rfl rfl (by decide) (by decide) (by decide)
    simpa using h
  · have h := (c9_receive_resync ⟨7, 3, 5⟩
      ⟨.standard 0x200,
        [0x55, 0x1b, 0x04, 0x75, 0x09, 0xc3, 0x10, 0x00]⟩).2.2.1
      0x200 rfl (by decide)
    simpa using h

/-! ## Witness states for the session claims -/

/-- A freshly created session: zero counters, uninitialized, empty log. -/
def c3w0 : SessionWorld := ⟨⟨0, 0, 0⟩, false, [], 0⟩

/-- The session after the first `move_robot` on `c3w0`. -/
def c3w1 : SessionWorld := (move_robot M0 envT c3w0 ⟨0, 0, 0⟩).1

/-- The session after a second `move_robot`. -/
def c3w2 : SessionWorld := (move_robot M0 envT c3w1 ⟨0, 0, 0⟩).1

/-- Witness for C3: on the concrete module `M0`, the first `move_robot` from
a fresh session succeeds and initializes, a second succeeds, the session is
initialized in between, `initialize_robot` is then a no-op, and the second
call appends only movement frames. -/
theorem c3_lazy_init_once_witness :
    move_robot M0 envT c3w0 ⟨0, 0, 0⟩ = (c3w1, none) ∧
    move_robot M0 envT c3w1 ⟨0, 0, 0⟩ = (c3w2, none) ∧
    c3w1.is_initialized = true ∧
    initialize_robot M0 envT c3w1 = (c3w1, none) ∧
    (∃ tw2 gi2,
      c3w2.sent = c3w1.sent ++ split_command tw2 ++ split_command gi2) := by
  have h := c3_lazy_init_once M0 envT c3w0 c3w1 c3w2 ⟨0, 0, 0⟩ ⟨0, 0, 0⟩
    rfl rfl (by decide) (by decide)
  obtain ⟨⟨boot, tw, gi, -, -, hflag⟩, hinit, hrest⟩ := h
  exact ⟨by decide, by decide, hflag, hinit, hrest⟩

/-- An already-initialized session with counters (5, 6, 7). -/
def c4w : SessionWorld := ⟨⟨5, 6, 7⟩, true, [], 0⟩

/-- The session after `move_robot` on `c4w`. -/
def c4w1 : SessionWorld := (move_robot M0 envT c4w ⟨0, 0, 0⟩).1

/-- Witness for C4: a concrete successful `move_robot` call on `M0` ships a
twist and a coupled gimbal command and bumps exactly `joy` and `gimbal`. -/
theorem c4_move_sends_twist_and_gimbal_witness :
    move_robot M0 envT c4w ⟨0, 0, 0⟩ = (c4w1, none) ∧
    (∃ pre tw gi,
      build_twist_command M0 ⟨0, 0, 0⟩ c4w.counters = .ok tw ∧
      build_gimbal_command M0 { ry := 0, rz := 0 } c4w.counters = .ok gi ∧
      c4w1.sent = c4w.sent ++ pre ++ split_command tw ++ split_command gi ∧
      (c4w.is_initialized = true → pre = []) ∧
      c4w1.counters.joy = wrapping_add_1 c4w.counters.joy ∧
      c4w1.counters.gimbal = wrapping_add_1 c4w.counters.gimbal ∧
      c4w1.counters.led = c4w.counters.led) :=
  ⟨by decide, c4_move_sends_twist_and_gimbal M0 envT c4w c4w1 ⟨0, 0, 0⟩
    (by decide)⟩

/-- Witness for C10: with a transport where every write fails, a fresh
`move_robot` fails with `sendFailed` on the boot burst and leaves the
counters exactly as they were. -/
theorem c10_no_increment_on_error_witness :
    move_robot M0 envF ⟨⟨1, 2, 3⟩, false, [], 0⟩ ⟨0, 0, 0⟩ =
      ((move_robot M0 envF ⟨⟨1, 2, 3⟩, false, [], 0⟩ ⟨0, 0, 0⟩).1,
        some RMError.sendFailed) ∧
    ((move_robot M0 envF ⟨⟨1, 2, 3⟩, false, [], 0⟩ ⟨0, 0, 0⟩).1).counters =
      ⟨1, 2, 3⟩ := by
  have h := (c10_no_increment_on_error M0 envF ⟨⟨1, 2, 3⟩, false, [], 0⟩
    (move_robot M0 envF ⟨⟨1, 2, 3⟩, false, [], 0⟩ ⟨0, 0, 0⟩).1
    RMError.sendFailed ⟨0, 0, 0⟩ ⟨255, 0, 0⟩).1
  exact ⟨by decide, h (by decide)⟩
